import Mathlib

/-!
# Verification of the budget-dashboard data pipeline

Shallow embedding of the data-shaping core of `dash.py`: the loader
(`load_data`), the per-category aggregator inside `bar_compare`, the figure
construction of `bar_compare`, the OKR summary averaging, and the TV-mode
presentation cycle.  Tabular data frames are embedded as lists of records;
dates are encoded as natural numbers in `yyyymmdd` form (numeric order on
this encoding agrees with chronological order); monetary and progress values
are rationals.  UI-only concerns (colors, layout, axis tick format, the
Streamlit widget calls) are outside the embedded core.
-/

namespace Dash

/-- A row of the tabular financial data, mirroring the columns used by
`dash.py`: `Data` (date), `Categoria`, `Natureza do Dado`, `Budget`,
`Actual/Est`. -/
structure Row where
  data : Nat
  categoria : String
  natureza : String
  budget : ℚ
  actualEst : ℚ
deriving DecidableEq

/-- `START = datetime(2025, 4, 1)` encoded as `yyyymmdd`. -/
def START : Nat := 20250401

/-- `END = datetime(2026, 3, 31)` encoded as `yyyymmdd`. -/
def END : Nat := 20260331

/-- The per-row effect of `df_aum.loc[mask, ["Budget", "Actual/Est"]] *= -1`
with `mask = df_aum["Categoria"] == "Disbursement"`: a row whose category is
`"Disbursement"` has both value columns multiplied by `-1`; any other row is
untouched. -/
def disbNeg (r : Row) : Row :=
  if r.categoria = "Disbursement" then
    { r with budget := -1 * r.budget, actualEst := -1 * r.actualEst }
  else r

/-- Embeds `load_data`: both tables are filtered to the inclusive window
`[START, END]`; then, on the AuM table only, the `"Disbursement"` negation
`disbNeg` is applied row-wise.  The Excel reading and date parsing are
outside the embedding; the function takes the already-parsed raw rows of
the two files. -/
def load_data (df_budg df_aum : List Row) : List Row × List Row :=
  let b := df_budg.filter (fun r => decide (START ≤ r.data) && decide (r.data ≤ END))
  let a := df_aum.filter (fun r => decide (START ≤ r.data) && decide (r.data ≤ END))
  let a2 := a.map disbNeg
  (b, a2)

/-- The distinct group keys of a pandas `groupby`, in ascending order
(pandas sorts group keys; `bar_compare` additionally calls `sort_index`). -/
def groupKeys (ds : List Nat) : List Nat :=
  List.insertionSort (· ≤ ·) ds.dedup

/-- Embeds `rows.groupby('Data')[col].sum().sort_index()`: one `(date, sum)`
pair per distinct date, in ascending date order. -/
def groupbySum (rows : List Row) (col : Row → ℚ) : List (Nat × ℚ) :=
  (groupKeys (rows.map Row.data)).map
    (fun e => (e, ((rows.filter (fun r => decide (r.data = e))).map col).sum))

/-- Running sum of the second components, starting from accumulator `acc`
(embeds pandas `cumsum` on a series). -/
def cumsumFrom (acc : ℚ) : List (Nat × ℚ) → List (Nat × ℚ)
  | [] => []
  | p :: rest => (p.1, acc + p.2) :: cumsumFrom (acc + p.2) rest

/-- Pandas `Series.cumsum` on a `(date, value)` series. -/
def cumsum (s : List (Nat × ℚ)) : List (Nat × ℚ) := cumsumFrom 0 s

/-- Successive differences with the first element kept (the inverse of
`cumsum`, as in pandas `Series.diff` with the first value filled back). -/
def diffFrom (prev : ℚ) : List (Nat × ℚ) → List (Nat × ℚ)
  | [] => []
  | p :: rest => (p.1, p.2 - prev) :: diffFrom p.2 rest

/-- Successive differences of a series, keeping the first element. -/
def seriesDiff (s : List (Nat × ℚ)) : List (Nat × ℚ) := diffFrom 0 s

/-- The three aligned series produced inside `bar_compare`. -/
structure SeriesTriple where
  budget : List (Nat × ℚ)
  actual : List (Nat × ℚ)
  forecast : List (Nat × ℚ)
deriving DecidableEq

/-- Embeds the aggregation part of `bar_compare` (lines 53-61 of `dash.py`):
filter to the category; the budget series sums `Budget` grouped by date over
all rows of the category; the actual series sums `Actual/Est` over rows with
`Natureza do Dado == 'Actual'`; the forecast series over rows with
`'Forecast'`; each sorted by date; if `cumulative`, each series is replaced
by its running sum. -/
def bar_compare_series (df : List Row) (categoria : String) (cumulative : Bool) :
    SeriesTriple :=
  let d := df.filter (fun r => decide (r.categoria = categoria))
  let budget_data := groupbySum d Row.budget
  let actual_data := groupbySum (d.filter (fun r => decide (r.natureza = "Actual"))) Row.actualEst
  let forecast_data := groupbySum (d.filter (fun r => decide (r.natureza = "Forecast"))) Row.actualEst
  if cumulative then
    { budget := cumsum budget_data
      actual := cumsum actual_data
      forecast := cumsum forecast_data }
  else
    { budget := budget_data, actual := actual_data, forecast := forecast_data }

/-- A plotly trace as constructed by `bar_compare`.  `kind` is `"bar"` for
`go.Bar` and `"scatter"` for `go.Scatter`; `text` is plotly's value-label
attribute, which defaults to `none` and which `dash.py` never sets (the
calls pass only `x`, `y`, `name` and style arguments).  Pure style
attributes (marker color, line style) are presentation-only and omitted. -/
structure Trace where
  kind : String
  name : String
  x : List Nat
  y : List ℚ
  text : Option (List String)
deriving DecidableEq

/-- A plotly figure as assembled by `bar_compare`: its trace list and the
`barmode` layout setting. -/
structure Figure where
  traces : List Trace
  barmode : String
deriving DecidableEq

/-- The `go.Bar(x=actual_data.index, y=actual_data, name="Actual", ...)`
trace; no `text` argument is passed, so the value-label attribute keeps its
plotly default `none`. -/
def actualTrace (t : SeriesTriple) : Trace :=
  { kind := "bar", name := "Actual", x := t.actual.map Prod.fst,
    y := t.actual.map Prod.snd, text := none }

/-- The `go.Bar(x=forecast_data.index, y=forecast_data, name="Forecast",
...)` trace; again no `text` argument is passed. -/
def forecastTrace (t : SeriesTriple) : Trace :=
  { kind := "bar", name := "Forecast", x := t.forecast.map Prod.fst,
    y := t.forecast.map Prod.snd, text := none }

/-- The `go.Scatter(x=budget_data.index, y=budget_data, mode="lines",
name="Budget", ...)` trace; again no `text` argument is passed. -/
def budgetTrace (t : SeriesTriple) : Trace :=
  { kind := "scatter", name := "Budget", x := t.budget.map Prod.fst,
    y := t.budget.map Prod.snd, text := none }

/-- Embeds the figure construction of `bar_compare` (lines 63-70): a bar
trace named `"Actual"` is added only when the actual series is non-empty,
then a bar trace `"Forecast"` when the forecast series is non-empty, then a
line trace `"Budget"` when the budget series is non-empty; the layout sets
`barmode="overlay"`.  The function is total: an empty series yields an
absent trace, never a failure. -/
def bar_compare (df : List Row) (categoria : String) (cumulative : Bool) : Figure :=
  let t := bar_compare_series df categoria cumulative
  { traces :=
      (if t.actual = [] then [] else [actualTrace t]) ++
      ((if t.forecast = [] then [] else [forecastTrace t]) ++
       (if t.budget = [] then [] else [budgetTrace t]))
    barmode := "overlay" }

/-- A row of the OKR table: columns `Objectives`, `Child Items`, `Current`. -/
structure OkrRow where
  objectives : String
  childItems : String
  current : ℚ
deriving DecidableEq

/-- Embeds `df_okrs.groupby("Objectives")["Current"].mean()` (used both by
`display_okr_summary_view` and `page_okrs`): one `(objective, mean)` pair
per distinct objective.  Groups are listed in first-occurrence order; pandas
lists them in sorted key order, which affects only display order, not the
computed averages. -/
def okr_summary (df : List OkrRow) : List (String × ℚ) :=
  ((df.map OkrRow.objectives).dedup).map (fun obj =>
    let g := df.filter (fun r => decide (r.objectives = obj))
    (obj, ((g.map OkrRow.current).sum) / (g.length : ℚ)))

/-- The Streamlit session state as used by the TV-mode logic: the
`tv_mode_on` flag and the `view_index` key, which is absent (`none`) until
`page_tv_mode` first initializes it. -/
structure SessionState where
  tv_mode_on : Bool
  view_index : Option Nat
deriving DecidableEq

/-- Embeds the exit-button handler (line 173): `st.session_state.tv_mode_on
= False`; nothing else in the session state is touched. -/
def exit_tv_mode (s : SessionState) : SessionState :=
  { s with tv_mode_on := false }

/-- Embeds the start-button handler (line 276): `st.session_state.tv_mode_on
= True`; nothing else in the session state is touched. -/
def start_tv_mode (s : SessionState) : SessionState :=
  { s with tv_mode_on := true }

/-- Embeds lines 234-235: `if 'view_index' not in st.session_state:
st.session_state.view_index = 0`. -/
def ensure_view_index (s : SessionState) : SessionState :=
  match s.view_index with
  | none => { s with view_index := some 0 }
  | some _ => s

/-- Embeds line 253: `st.session_state.view_index =
(st.session_state.view_index + 1) % len(views)`. -/
def tvAdvance (n : Nat) (i : Nat) : Nat := (i + 1) % n

/-- One iteration of the TV-mode loop on view list `views` at index `i`:
render the view at the current index (`views[st.session_state.view_index]`),
then advance the index modulo the list length.  Returns the rendered view
and the next index. -/
def tvTick {V : Type} (views : List V) (i : Nat) : Option V × Nat :=
  (views[i]?, (i + 1) % views.length)

/-- Prefix sums of a list of values, written after the spec's description of
a cumulative series ("the prefix sum of the non-cumulative variant in
ascending date order"), to be compared with the code's `cumsum`. -/
def prefixSums : List ℚ → List ℚ
  | [] => []
  | v :: rest => v :: (prefixSums rest).map (fun w => v + w)

/-! ### Concrete sample data used by witnesses and counterexamples -/

/-- The single row of the spec's end-to-end example: date 2025-04,
Budget 100, Actual/Est 90, nature Actual, category Revenues. -/
def exRow : Row :=
  { data := 20250401, categoria := "Revenues", natureza := "Actual",
    budget := 100, actualEst := 90 }

/-- A raw AuM-table row with the stock category, inside the date window. -/
def exAum : Row :=
  { data := 20250501, categoria := "AuM at the EoP", natureza := "Actual",
    budget := 2, actualEst := 3 }

/-- A raw budget-table row carrying category `"Disbursement"`, inside the
date window. -/
def exDisb : Row :=
  { data := 20250601, categoria := "Disbursement", natureza := "Actual",
    budget := 5, actualEst := 7 }

/-- A raw row dated 2024-01-01, outside the reporting window. -/
def exOld : Row :=
  { data := 20240101, categoria := "Committed", natureza := "Actual",
    budget := 11, actualEst := 13 }

/-- OKR sample: one objective with three child progress values
`1/5, 2/5, 3/5` (that is, 0.2, 0.4, 0.6). -/
def exOkrs : List OkrRow :=
  [ { objectives := "Grow", childItems := "KR1", current := 1/5 },
    { objectives := "Grow", childItems := "KR2", current := 2/5 },
    { objectives := "Grow", childItems := "KR3", current := 3/5 } ]

/-! ### Helper lemmas -/

/-- The disbursement negation never changes the date of a row. -/
theorem disbNeg_data (r : Row) : (disbNeg r).data = r.data := by
  unfold disbNeg; split <;> rfl

/-- The disbursement negation never changes the category of a row. -/
theorem disbNeg_categoria (r : Row) : (disbNeg r).categoria = r.categoria := by
  unfold disbNeg; split <;> rfl

/-- A row whose category is not `"Disbursement"` is untouched. -/
theorem disbNeg_of_ne {r : Row} (h : r.categoria ≠ "Disbursement") :
    disbNeg r = r := by
  unfold disbNeg; exact if_neg h

/-- A `"Disbursement"` row has both value columns negated. -/
theorem disbNeg_of_eq {r : Row} (h : r.categoria = "Disbursement") :
    disbNeg r = { r with budget := -1 * r.budget, actualEst := -1 * r.actualEst } := by
  unfold disbNeg; exact if_pos h

/-- Peeling `diffFrom` off `cumsumFrom` with a matching accumulator gives
back the original series. -/
theorem diffFrom_cumsumFrom (s : List (Nat × ℚ)) :
    ∀ acc : ℚ, diffFrom acc (cumsumFrom acc s) = s := by
  induction s with
  | nil => intro acc; rfl
  | cons p rest ih =>
      intro acc
      simp only [cumsumFrom, diffFrom, add_sub_cancel_left, ih (acc + p.2)]

/-- The cumulative transform preserves the dates of a series. -/
theorem cumsumFrom_map_fst (s : List (Nat × ℚ)) :
    ∀ acc : ℚ, (cumsumFrom acc s).map Prod.fst = s.map Prod.fst := by
  induction s with
  | nil => intro acc; rfl
  | cons p rest ih => intro acc; simp [cumsumFrom, ih]

/-- The cumulative transform preserves the length of a series. -/
theorem cumsumFrom_length (s : List (Nat × ℚ)) :
    ∀ acc : ℚ, (cumsumFrom acc s).length = s.length := by
  induction s with
  | nil => intro acc; rfl
  | cons p rest ih => intro acc; simp [cumsumFrom, ih]

/-- The group keys are strictly increasing: the insertion sort of the
deduplicated dates is sorted and duplicate-free. -/
theorem groupKeys_sorted_lt (ds : List Nat) :
    (groupKeys ds).Sorted (· < ·) := by
  have h1 : (groupKeys ds).Sorted (· ≤ ·) :=
    List.sorted_insertionSort (· ≤ ·) ds.dedup
  have h2 : (groupKeys ds).Nodup :=
    ((List.perm_insertionSort (· ≤ ·) ds.dedup).nodup_iff).mpr (List.nodup_dedup ds)
  exact h1.lt_of_le h2

/-- A date is a group key exactly when it occurs among the input dates. -/
theorem groupKeys_mem (ds : List Nat) (e : Nat) :
    e ∈ groupKeys ds ↔ e ∈ ds := by
  rw [groupKeys, List.mem_insertionSort, List.mem_dedup]

/-- Every pair in `groupbySum rows col` carries the sum of `col` over the
rows with that date. -/
theorem groupbySum_val (rows : List Row) (col : Row → ℚ) :
    ∀ p ∈ groupbySum rows col,
      p.2 = ((rows.filter (fun r => decide (r.data = p.1))).map col).sum := by
  intro p hp
  rcases List.mem_map.mp hp with ⟨e, _, he⟩
  rw [← he]

/-- A date has an entry in `groupbySum rows col` exactly when some row has
that date. -/
theorem groupbySum_mem_fst (rows : List Row) (col : Row → ℚ) (e : Nat) :
    (∃ v, (e, v) ∈ groupbySum rows col) ↔ ∃ r ∈ rows, r.data = e := by
  constructor
  · rintro ⟨v, hv⟩
    rcases List.mem_map.mp hv with ⟨a, ha, hae⟩
    have : a = e := congrArg Prod.fst hae
    subst this
    rcases (groupKeys_mem _ _).mp ha with hmem
    rcases List.mem_map.mp hmem with ⟨r, hr, hre⟩
    exact ⟨r, hr, hre⟩
  · rintro ⟨r, hr, hre⟩
    refine ⟨((rows.filter (fun r => decide (r.data = e))).map col).sum, ?_⟩
    exact List.mem_map.mpr ⟨e, (groupKeys_mem _ _).mpr
      (List.mem_map.mpr ⟨r, hr, hre⟩), rfl⟩

/-- The date components of `groupbySum rows col` are strictly increasing. -/
theorem groupbySum_sorted (rows : List Row) (col : Row → ℚ) :
    (groupbySum rows col).Pairwise (fun p q => p.1 < q.1) := by
  have h := groupKeys_sorted_lt (rows.map Row.data)
  exact List.pairwise_map.mpr (h.imp (fun {a b} hab => hab))

/-- Entry `i` of `cumsumFrom acc s` is `acc` plus the sum of the first
`i + 1` values of `s`. -/
theorem cumsumFrom_get (s : List (Nat × ℚ)) :
    ∀ (acc : ℚ) (i : Nat) (hi : i < (cumsumFrom acc s).length),
      ((cumsumFrom acc s).get ⟨i, hi⟩).2 =
        acc + (((s.take (i + 1)).map Prod.snd).sum) := by
  induction s with
  | nil => intro acc i hi; simp [cumsumFrom] at hi
  | cons p rest ih =>
      intro acc i hi
      cases i with
      | zero => simp [cumsumFrom]
      | succ j =>
          have hj : j < (cumsumFrom (acc + p.2) rest).length := by
            simpa [cumsumFrom] using hi
          have := ih (acc + p.2) j hj
          simp only [cumsumFrom, List.get_cons_succ, List.take_succ_cons,
            List.map_cons, List.sum_cons] at this ⊢
          rw [this]
          ring

/-- The values of `cumsumFrom acc s` are the prefix sums of the values of
`s`, each shifted by `acc`. -/
theorem cumsumFrom_snd (s : List (Nat × ℚ)) :
    ∀ acc : ℚ, (cumsumFrom acc s).map Prod.snd =
      (prefixSums (s.map Prod.snd)).map (fun v => acc + v) := by
  induction s with
  | nil => intro acc; rfl
  | cons p rest ih =>
      intro acc
      simp only [cumsumFrom, List.map_cons, prefixSums, ih (acc + p.2),
        List.map_map]
      refine congrArg (fun l => (acc + p.2) :: l) ?_
      refine congrArg (fun f => List.map f (prefixSums (rest.map Prod.snd))) ?_
      funext w
      simp [Function.comp, add_assoc]

/-- The values of `cumsum s` are exactly the prefix sums of the values of
`s`. -/
theorem cumsum_snd (s : List (Nat × ℚ)) :
    (cumsum s).map Prod.snd = prefixSums (s.map Prod.snd) := by
  rw [cumsum, cumsumFrom_snd]
  simp

/-- Taking successive differences (first element kept) of `cumsum s` gives
back `s`. -/
theorem seriesDiff_cumsum (s : List (Nat × ℚ)) :
    seriesDiff (cumsum s) = s :=
  diffFrom_cumsumFrom s 0

/-- Claim C2: for every loaded table, target category, and the
non-cumulative aggregation, the budget series sums the `Budget` column
grouped by date over all rows of the category regardless of data-nature; the
actual series sums `Actual/Est` grouped by date over rows labeled
`"Actual"`; the forecast series over rows labeled `"Forecast"`; and each of
the three series is sorted strictly ascending by date.  A date carries an
entry in a series exactly when some contributing row has that date. -/
theorem spec_C2 (df : List Row) (categoria : String) :
    ((bar_compare_series df categoria false).budget.Pairwise (fun p q => p.1 < q.1) ∧
     (bar_compare_series df categoria false).actual.Pairwise (fun p q => p.1 < q.1) ∧
     (bar_compare_series df categoria false).forecast.Pairwise (fun p q => p.1 < q.1)) ∧
    (∀ p ∈ (bar_compare_series df categoria false).budget,
       p.2 = (((df.filter (fun r => decide (r.categoria = categoria))).filter
                (fun r => decide (r.data = p.1))).map Row.budget).sum) ∧
    (∀ e : Nat, (∃ v, (e, v) ∈ (bar_compare_series df categoria false).budget) ↔
       ∃ r ∈ df, r.categoria = categoria ∧ r.data = e) ∧
    (∀ p ∈ (bar_compare_series df categoria false).actual,
       p.2 = ((((df.filter (fun r => decide (r.categoria = categoria))).filter
                 (fun r => decide (r.natureza = "Actual"))).filter
                (fun r => decide (r.data = p.1))).map Row.actualEst).sum) ∧
    (∀ e : Nat, (∃ v, (e, v) ∈ (bar_compare_series df categoria false).actual) ↔
       ∃ r ∈ df, r.categoria = categoria ∧ r.natureza = "Actual" ∧ r.data = e) ∧
    (∀ p ∈ (bar_compare_series df categoria false).forecast,
       p.2 = ((((df.filter (fun r => decide (r.categoria = categoria))).filter
                 (fun r => decide (r.natureza = "Forecast"))).filter
                (fun r => decide (r.data = p.1))).map Row.actualEst).sum) ∧
    (∀ e : Nat, (∃ v, (e, v) ∈ (bar_compare_series df categoria false).forecast) ↔
       ∃ r ∈ df, r.categoria = categoria ∧ r.natureza = "Forecast" ∧ r.data = e) := by
  have hb : (bar_compare_series df categoria false).budget =
      groupbySum (df.filter (fun r => decide (r.categoria = categoria))) Row.budget := rfl
  have ha : (bar_compare_series df categoria false).actual =
      groupbySum ((df.filter (fun r => decide (r.categoria = categoria))).filter
        (fun r => decide (r.natureza = "Actual"))) Row.actualEst := rfl
  have hf : (bar_compare_series df categoria false).forecast =
      groupbySum ((df.filter (fun r => decide (r.categoria = categoria))).filter
        (fun r => decide (r.natureza = "Forecast"))) Row.actualEst := rfl
  refine ⟨⟨?_, ?_, ?_⟩, ?_, ?_, ?_, ?_, ?_, ?_⟩
  · rw [hb]; exact groupbySum_sorted _ _
  · rw [ha]; exact groupbySum_sorted _ _
  · rw [hf]; exact groupbySum_sorted _ _
  · rw [hb]; exact groupbySum_val _ _
  · intro e
    rw [hb, groupbySum_mem_fst]
    simp only [List.mem_filter, decide_eq_true_eq]
    exact ⟨fun ⟨r, ⟨hr, hc⟩, hd⟩ => ⟨r, hr, hc, hd⟩,
           fun ⟨r, hr, hc, hd⟩ => ⟨r, ⟨hr, hc⟩, hd⟩⟩
  · rw [ha]; exact groupbySum_val _ _
  · intro e
    rw [ha, groupbySum_mem_fst]
    simp only [List.mem_filter, decide_eq_true_eq]
    exact ⟨fun ⟨r, ⟨⟨hr, hc⟩, hn⟩, hd⟩ => ⟨r, hr, hc, hn, hd⟩,
           fun ⟨r, hr, hc, hn, hd⟩ => ⟨r, ⟨⟨hr, hc⟩, hn⟩, hd⟩⟩
  · rw [hf]; exact groupbySum_val _ _
  · intro e
    rw [hf, groupbySum_mem_fst]
    simp only [List.mem_filter, decide_eq_true_eq]
    exact ⟨fun ⟨r, ⟨⟨hr, hc⟩, hn⟩, hd⟩ => ⟨r, hr, hc, hn, hd⟩,
           fun ⟨r, hr, hc, hn, hd⟩ => ⟨r, ⟨⟨hr, hc⟩, hn⟩, hd⟩⟩

/-- Witness for C2: the spec's end-to-end example.  For the single input
row (2025-04-01, Budget 100, Actual/Est 90, nature Actual, category
Revenues), the actual series has entry 90 at that date (and the theorem
yields it as the filtered sum), the budget series has entry 100, and the
forecast series is empty. -/
theorem spec_C2_witness :
    (bar_compare_series [exRow] "Revenues" false).actual = [(20250401, (90 : ℚ))] ∧
    (90 : ℚ) = (((([exRow].filter (fun r => decide (r.categoria = "Revenues"))).filter
                   (fun r => decide (r.natureza = "Actual"))).filter
                  (fun r => decide (r.data = 20250401))).map Row.actualEst).sum ∧
    (bar_compare_series [exRow] "Revenues" false).budget = [(20250401, (100 : ℚ))] ∧
    (bar_compare_series [exRow] "Revenues" false).forecast = [] := by
  have h := spec_C2 [exRow] "Revenues"
  refine ⟨?_, h.2.2.2.1 (20250401, (90 : ℚ)) ?_, ?_, ?_⟩ <;>
    simp +decide [bar_compare_series, groupbySum, groupKeys, exRow,
      List.insertionSort, List.orderedInsert]

/-- Claim C3: for every series produced by the aggregator, the cumulative
variant equals the prefix sum of the non-cumulative variant in ascending
date order (same dates, values replaced by prefix sums), and taking
successive differences of the cumulative series with the first element kept
reproduces the non-cumulative series exactly. -/
theorem spec_C3 (df : List Row) (categoria : String) :
    bar_compare_series df categoria true =
      { budget := cumsum (bar_compare_series df categoria false).budget
        actual := cumsum (bar_compare_series df categoria false).actual
        forecast := cumsum (bar_compare_series df categoria false).forecast } ∧
    ((bar_compare_series df categoria true).budget.map Prod.fst =
       (bar_compare_series df categoria false).budget.map Prod.fst ∧
     (bar_compare_series df categoria true).actual.map Prod.fst =
       (bar_compare_series df categoria false).actual.map Prod.fst ∧
     (bar_compare_series df categoria true).forecast.map Prod.fst =
       (bar_compare_series df categoria false).forecast.map Prod.fst) ∧
    ((bar_compare_series df categoria true).budget.map Prod.snd =
       prefixSums ((bar_compare_series df categoria false).budget.map Prod.snd) ∧
     (bar_compare_series df categoria true).actual.map Prod.snd =
       prefixSums ((bar_compare_series df categoria false).actual.map Prod.snd) ∧
     (bar_compare_series df categoria true).forecast.map Prod.snd =
       prefixSums ((bar_compare_series df categoria false).forecast.map Prod.snd)) ∧
    (seriesDiff ((bar_compare_series df categoria true).budget) =
       (bar_compare_series df categoria false).budget ∧
     seriesDiff ((bar_compare_series df categoria true).actual) =
       (bar_compare_series df categoria false).actual ∧
     seriesDiff ((bar_compare_series df categoria true).forecast) =
       (bar_compare_series df categoria false).forecast) := by
  refine ⟨rfl, ⟨?_, ?_, ?_⟩, ⟨?_, ?_, ?_⟩, ⟨?_, ?_, ?_⟩⟩
  · exact cumsumFrom_map_fst _ 0
  · exact cumsumFrom_map_fst _ 0
  · exact cumsumFrom_map_fst _ 0
  · exact cumsum_snd _
  · exact cumsum_snd _
  · exact cumsum_snd _
  · exact seriesDiff_cumsum _
  · exact seriesDiff_cumsum _
  · exact seriesDiff_cumsum _

/-- Claim C5: every row of either table returned by `load_data` has a date
in the inclusive window `[START, END]` (2025-04-01 to 2026-03-31), and for
every raw input row dated outside the window, no loaded row carries that
date. -/
theorem spec_C5 (df_budg df_aum : List Row) :
    (∀ r ∈ (load_data df_budg df_aum).1, START ≤ r.data ∧ r.data ≤ END) ∧
    (∀ r ∈ (load_data df_budg df_aum).2, START ≤ r.data ∧ r.data ≤ END) ∧
    (∀ r ∈ df_budg, ¬(START ≤ r.data ∧ r.data ≤ END) →
       ∀ q ∈ (load_data df_budg df_aum).1, q.data ≠ r.data) ∧
    (∀ r ∈ df_aum, ¬(START ≤ r.data ∧ r.data ≤ END) →
       ∀ q ∈ (load_data df_budg df_aum).2, q.data ≠ r.data) := by
  have h1 : (load_data df_budg df_aum).1 =
      df_budg.filter (fun r => decide (START ≤ r.data) && decide (r.data ≤ END)) := rfl
  have h2 : (load_data df_budg df_aum).2 =
      (df_aum.filter (fun r => decide (START ≤ r.data) && decide (r.data ≤ END))).map
        disbNeg := rfl
  have hwin1 : ∀ r ∈ (load_data df_budg df_aum).1, START ≤ r.data ∧ r.data ≤ END := by
    intro r hr
    rw [h1] at hr
    have := (List.mem_filter.mp hr).2
    simpa [Bool.and_eq_true, decide_eq_true_eq] using this
  have hwin2 : ∀ r ∈ (load_data df_budg df_aum).2, START ≤ r.data ∧ r.data ≤ END := by
    intro r hr
    rw [h2] at hr
    rcases List.mem_map.mp hr with ⟨r0, hr0, hEq⟩
    have := (List.mem_filter.mp hr0).2
    rw [← hEq, disbNeg_data]
    simpa [Bool.and_eq_true, decide_eq_true_eq] using this
  refine ⟨hwin1, hwin2, ?_, ?_⟩
  · intro r _ hout q hq hEq
    have := hwin1 q hq
    rw [hEq] at this
    exact hout this
  · intro r _ hout q hq hEq
    have := hwin2 q hq
    rw [hEq] at this
    exact hout this

/-- Witness for C5: the AuM sample row dated 2025-05-01 is loaded and lies
in the window, and a raw row dated 2024-01-01 shares its date with no
loaded row. -/
theorem spec_C5_witness :
    (START ≤ exAum.data ∧ exAum.data ≤ END) ∧ exAum.data ≠ exOld.data := by
  have hmem : exAum ∈ (load_data [] [exOld, exAum]).2 := by
    simp +decide [load_data, disbNeg, exAum, exOld, START, END]
  refine ⟨(spec_C5 [] [exOld, exAum]).2.1 exAum hmem, ?_⟩
  exact (spec_C5 [] [exOld, exAum]).2.2.2 exOld (by decide) (by decide) exAum hmem

/-- Claim C1 (amended): rows of the AuM table with the stock category
`"AuM at the EoP"` that lie in the date window are loaded with their budget
and actual/estimate values unchanged — no 1,000,000 scaling is applied
anywhere in `load_data` — and every loaded row of that category is literally
a raw row of the AuM table. -/
theorem spec_C1 (df_budg df_aum : List Row) :
    (∀ r ∈ df_aum, START ≤ r.data → r.data ≤ END →
       r.categoria = "AuM at the EoP" → r ∈ (load_data df_budg df_aum).2) ∧
    (∀ q ∈ (load_data df_budg df_aum).2, q.categoria = "AuM at the EoP" →
       q ∈ df_aum) := by
  have h2 : (load_data df_budg df_aum).2 =
      (df_aum.filter (fun r => decide (START ≤ r.data) && decide (r.data ≤ END))).map
        disbNeg := rfl
  constructor
  · intro r hr hlo hhi hcat
    rw [h2]
    have hne : r.categoria ≠ "Disbursement" := by rw [hcat]; decide
    have hfix : disbNeg r = r := disbNeg_of_ne hne
    refine List.mem_map.mpr ⟨r, ?_, hfix⟩
    exact List.mem_filter.mpr ⟨hr, by
      simp [Bool.and_eq_true, decide_eq_true_eq]; exact ⟨hlo, hhi⟩⟩
  · intro q hq hcat
    rw [h2] at hq
    rcases List.mem_map.mp hq with ⟨r0, hr0, hEq⟩
    have hc0 : r0.categoria = "AuM at the EoP" := by
      rw [← disbNeg_categoria r0, hEq, hcat]
    have hne : r0.categoria ≠ "Disbursement" := by rw [hc0]; decide
    have hfix : disbNeg r0 = r0 := disbNeg_of_ne hne
    rw [← hEq, hfix]
    exact (List.mem_filter.mp hr0).1

/-- Counterexample for C1 as stated: with the single raw AuM row `exAum`
(category `"AuM at the EoP"`, budget 2, actual/est 3, date in the window),
the loaded row carries the raw values, not 1,000,000 times them, so the
claimed scaling does not hold of `load_data`. -/
theorem spec_C1_counterexample :
    ¬ (∀ df_budg df_aum : List Row, ∀ r ∈ df_aum,
        START ≤ r.data → r.data ≤ END → r.categoria = "AuM at the EoP" →
        ∀ q ∈ (load_data df_budg df_aum).2, q.data = r.data →
          q.budget = 1000000 * r.budget ∧ q.actualEst = 1000000 * r.actualEst) := by
  intro h
  have hmem : exAum ∈ (load_data [] [exAum]).2 := by
    simp +decide [load_data, disbNeg, exAum, START, END]
  have hb := (h [] [exAum] exAum (by decide) (by decide) (by decide) rfl
    exAum hmem rfl).1
  norm_num [exAum] at hb

/-- Witness for C1 (amended): the in-window AuM sample row is loaded
unchanged into the AuM table. -/
theorem spec_C1_witness :
    exAum ∈ (load_data [] [exAum]).2 :=
  (spec_C1 [] [exAum]).1 exAum (by decide) (by decide) (by decide) rfl

/-- Claim C4 (amended): `load_data` negates both value columns exactly for
`"Disbursement"` rows of the AuM table: every in-window raw AuM row of that
category yields the row with both values multiplied by `-1`, and every
loaded AuM-table row of that category arises from a raw AuM row by that
negation.  Disbursement rows of the budget table are not negated (see the
counterexample). -/
theorem spec_C4 (df_budg df_aum : List Row) :
    (∀ r ∈ df_aum, START ≤ r.data → r.data ≤ END → r.categoria = "Disbursement" →
       { r with budget := -1 * r.budget, actualEst := -1 * r.actualEst } ∈
         (load_data df_budg df_aum).2) ∧
    (∀ q ∈ (load_data df_budg df_aum).2, q.categoria = "Disbursement" →
       ∃ r ∈ df_aum, START ≤ r.data ∧ r.data ≤ END ∧ r.categoria = "Disbursement" ∧
         q.data = r.data ∧ q.budget = -1 * r.budget ∧ q.actualEst = -1 * r.actualEst) := by
  have h2 : (load_data df_budg df_aum).2 =
      (df_aum.filter (fun r => decide (START ≤ r.data) && decide (r.data ≤ END))).map
        disbNeg := rfl
  constructor
  · intro r hr hlo hhi hcat
    rw [h2]
    refine List.mem_map.mpr ⟨r, ?_, (disbNeg_of_eq hcat).symm ▸ rfl⟩
    exact List.mem_filter.mpr ⟨hr, by
      simp [Bool.and_eq_true, decide_eq_true_eq]; exact ⟨hlo, hhi⟩⟩
  · intro q hq hcat
    rw [h2] at hq
    rcases List.mem_map.mp hq with ⟨r0, hr0, hEq⟩
    have hc0 : r0.categoria = "Disbursement" := by
      rw [← disbNeg_categoria r0, hEq, hcat]
    have hwin := (List.mem_filter.mp hr0).2
    simp only [Bool.and_eq_true, decide_eq_true_eq] at hwin
    refine ⟨r0, (List.mem_filter.mp hr0).1, hwin.1, hwin.2, hc0, ?_, ?_, ?_⟩
    · rw [← hEq, disbNeg_data]
    · rw [← hEq, disbNeg_of_eq hc0]
    · rw [← hEq, disbNeg_of_eq hc0]

/-- Counterexample for C4 as stated: a raw row with category
`"Disbursement"` sitting in the budget table (not the AuM table), dated in
the window, is loaded with its values unchanged, so "every raw input row
with category Disbursement is negated" fails on `load_data`. -/
theorem spec_C4_counterexample :
    ¬ (∀ df_budg df_aum : List Row,
        ∀ r ∈ df_budg ++ df_aum, START ≤ r.data → r.data ≤ END →
        r.categoria = "Disbursement" →
        ∀ q ∈ (load_data df_budg df_aum).1 ++ (load_data df_budg df_aum).2,
          q.data = r.data →
          q.budget = -1 * r.budget ∧ q.actualEst = -1 * r.actualEst) := by
  intro h
  have hq : exDisb ∈ (load_data [exDisb] []).1 ++ (load_data [exDisb] []).2 := by
    simp +decide [load_data, exDisb, START, END]
  have hb := (h [exDisb] [] exDisb (by decide) (by decide) (by decide) rfl
    exDisb hq rfl).1
  norm_num [exDisb] at hb

/-- Witness for C4 (amended): the in-window AuM disbursement sample row is
loaded with both values negated. -/
theorem spec_C4_witness :
    { exDisb with budget := -1 * exDisb.budget, actualEst := -1 * exDisb.actualEst } ∈
      (load_data [] [exDisb]).2 :=
  (spec_C4 [] [exDisb]).1 exDisb (by decide) (by decide) (by decide) rfl

/-- If no row of the table carries the requested category, all three
aggregated series are empty. -/
theorem bar_compare_series_nil (df : List Row) (categoria : String)
    (cumulative : Bool)
    (h : df.filter (fun r => decide (r.categoria = categoria)) = []) :
    bar_compare_series df categoria cumulative =
      { budget := [], actual := [], forecast := [] } := by
  cases cumulative <;>
    simp [bar_compare_series, h, groupbySum, groupKeys, cumsum, cumsumFrom]

/-- Every trace of the figure built by `bar_compare` is one of the three
named traces, and is present only when its series is non-empty. -/
theorem bar_compare_trace_mem (df : List Row) (categoria : String)
    (cumulative : Bool) :
    ∀ t ∈ (bar_compare df categoria cumulative).traces,
      (t = actualTrace (bar_compare_series df categoria cumulative) ∧
         (bar_compare_series df categoria cumulative).actual ≠ []) ∨
      (t = forecastTrace (bar_compare_series df categoria cumulative) ∧
         (bar_compare_series df categoria cumulative).forecast ≠ []) ∨
      (t = budgetTrace (bar_compare_series df categoria cumulative) ∧
         (bar_compare_series df categoria cumulative).budget ≠ []) := by
  intro t ht
  have ht2 : t ∈
      (if (bar_compare_series df categoria cumulative).actual = [] then [] else
        [actualTrace (bar_compare_series df categoria cumulative)]) ++
      ((if (bar_compare_series df categoria cumulative).forecast = [] then [] else
        [forecastTrace (bar_compare_series df categoria cumulative)]) ++
       (if (bar_compare_series df categoria cumulative).budget = [] then [] else
        [budgetTrace (bar_compare_series df categoria cumulative)])) := ht
  rcases List.mem_append.mp ht2 with h | h'
  · split at h
    · simp at h
    · next ha => exact Or.inl ⟨List.mem_singleton.mp h, ha⟩
  · rcases List.mem_append.mp h' with h | h
    · split at h
      · simp at h
      · next hf => exact Or.inr (Or.inl ⟨List.mem_singleton.mp h, hf⟩)
    · split at h
      · simp at h
      · next hb => exact Or.inr (Or.inr ⟨List.mem_singleton.mp h, hb⟩)

/-- Claim C7: for every table, category and cumulative flag, a category
with no matching rows yields a figure with no traces at all, and an empty
actual, forecast or budget series yields a figure with no trace of that
name — the chart construction is a total function, so no input raises an
error and no zero-filled trace is produced. -/
theorem spec_C7 (df : List Row) (categoria : String) (cumulative : Bool) :
    (df.filter (fun r => decide (r.categoria = categoria)) = [] →
       (bar_compare df categoria cumulative).traces = []) ∧
    ((bar_compare_series df categoria cumulative).actual = [] →
       ∀ t ∈ (bar_compare df categoria cumulative).traces, t.name ≠ "Actual") ∧
    ((bar_compare_series df categoria cumulative).forecast = [] →
       ∀ t ∈ (bar_compare df categoria cumulative).traces, t.name ≠ "Forecast") ∧
    ((bar_compare_series df categoria cumulative).budget = [] →
       ∀ t ∈ (bar_compare df categoria cumulative).traces, t.name ≠ "Budget") := by
  refine ⟨?_, ?_, ?_, ?_⟩
  · intro h
    have hs := bar_compare_series_nil df categoria cumulative h
    simp [bar_compare, hs]
  · intro ha t ht
    rcases bar_compare_trace_mem df categoria cumulative t ht with
      ⟨_, hne⟩ | ⟨rfl, _⟩ | ⟨rfl, _⟩
    · exact absurd ha hne
    · simp [forecastTrace]
    · simp [budgetTrace]
  · intro hf t ht
    rcases bar_compare_trace_mem df categoria cumulative t ht with
      ⟨rfl, _⟩ | ⟨_, hne⟩ | ⟨rfl, _⟩
    · simp [actualTrace]
    · exact absurd hf hne
    · simp [budgetTrace]
  · intro hb t ht
    rcases bar_compare_trace_mem df categoria cumulative t ht with
      ⟨rfl, _⟩ | ⟨rfl, _⟩ | ⟨_, hne⟩
    · simp [actualTrace]
    · simp [forecastTrace]
    · exact absurd hb hne

/-- Witness for C7: the sample table has no `"Committed"` rows, and the
chart built for that category has no traces. -/
theorem spec_C7_witness :
    ([exRow].filter (fun r => decide (r.categoria = "Committed")) = []) ∧
    (bar_compare [exRow] "Committed" false).traces = [] := by
  have hempty : [exRow].filter (fun r => decide (r.categoria = "Committed")) = [] := by
    decide
  exact ⟨hempty, (spec_C7 [exRow] "Committed" false).1 hempty⟩

/-- Claim C9 (amended): every figure produced by `bar_compare` draws its
bars overlaid (`barmode = "overlay"`, not stacked), and no plotted value
carries a value label — the code passes no `text` argument to any trace, so
the label attribute of every trace is `none` (the compact "X.XM"/"XK"
formatting described by the spec does not exist in the code). -/
theorem spec_C9 (df : List Row) (categoria : String) (cumulative : Bool) :
    (bar_compare df categoria cumulative).barmode = "overlay" ∧
    ∀ t ∈ (bar_compare df categoria cumulative).traces, t.text = none := by
  refine ⟨rfl, ?_⟩
  intro t ht
  rcases bar_compare_trace_mem df categoria cumulative t ht with
    ⟨rfl, _⟩ | ⟨rfl, _⟩ | ⟨rfl, _⟩ <;> rfl

/-- Counterexample for C9 as stated: on the one-row sample table the chart
for its category contains a trace (with plotted values) whose value-label
attribute is `none`, so "each plotted value carries a compactly formatted
value label" is false of `bar_compare`. -/
theorem spec_C9_counterexample :
    ¬ (∀ (df : List Row) (categoria : String) (cumulative : Bool),
        ∀ t ∈ (bar_compare df categoria cumulative).traces, t.text ≠ none) := by
  intro h
  have hmem : actualTrace (bar_compare_series [exRow] "Revenues" false) ∈
      (bar_compare [exRow] "Revenues" false).traces := by
    simp +decide [bar_compare, bar_compare_series, groupbySum, groupKeys,
      exRow, List.insertionSort, List.orderedInsert]
  exact h [exRow] "Revenues" false _ hmem rfl

/-- Witness for C9 (amended): on the one-row sample table, the chart's bars
are overlaid and its first trace carries no value label. -/
theorem spec_C9_witness :
    (bar_compare [exRow] "Revenues" false).barmode = "overlay" ∧
    (actualTrace (bar_compare_series [exRow] "Revenues" false)).text = none := by
  have h := spec_C9 [exRow] "Revenues" false
  have hmem : actualTrace (bar_compare_series [exRow] "Revenues" false) ∈
      (bar_compare [exRow] "Revenues" false).traces := by
    simp +decide [bar_compare, bar_compare_series, groupbySum, groupKeys,
      exRow, List.insertionSort, List.orderedInsert]
  exact ⟨h.1, h.2 _ hmem⟩

/-- Claim C8: for every OKR table, the summary shows one entry per distinct
objective, and each displayed average equals the unweighted arithmetic mean
of the `Current` values of all child rows sharing that objective (sum of
the group divided by its size). -/
theorem spec_C8 (df : List OkrRow) :
    ((okr_summary df).map Prod.fst = (df.map OkrRow.objectives).dedup) ∧
    ((okr_summary df).map Prod.fst).Nodup ∧
    (∀ p ∈ okr_summary df,
       p.2 = ((df.filter (fun r => decide (r.objectives = p.1))).map OkrRow.current).sum /
              (((df.filter (fun r => decide (r.objectives = p.1))).length : ℚ))) ∧
    (∀ obj : String,
       (∃ a, (obj, a) ∈ okr_summary df) ↔ ∃ r ∈ df, r.objectives = obj) := by
  have hfst : (okr_summary df).map Prod.fst = (df.map OkrRow.objectives).dedup := by
    simp only [okr_summary, List.map_map]
    exact List.map_id _
  refine ⟨hfst, ?_, ?_, ?_⟩
  · rw [hfst]; exact List.nodup_dedup _
  · intro p hp
    rcases List.mem_map.mp hp with ⟨obj, _, he⟩
    rw [← he]
  · intro obj
    constructor
    · rintro ⟨a, ha⟩
      rcases List.mem_map.mp ha with ⟨x, hx, hxe⟩
      have : x = obj := congrArg Prod.fst hxe
      subst this
      rcases List.mem_map.mp (List.mem_dedup.mp hx) with ⟨r, hr, hre⟩
      exact ⟨r, hr, hre⟩
    · rintro ⟨r, hr, hre⟩
      refine ⟨((df.filter (fun q => decide (q.objectives = obj))).map OkrRow.current).sum /
        (((df.filter (fun q => decide (q.objectives = obj))).length : ℚ)), ?_⟩
      exact List.mem_map.mpr ⟨obj,
        List.mem_dedup.mpr (List.mem_map.mpr ⟨r, hr, hre⟩), rfl⟩

/-- Witness for C8: the spec's example — an objective with child progress
values 0.2, 0.4, 0.6 (as `1/5, 2/5, 3/5`) has displayed average `2/5`, and
the theorem identifies it with the group mean. -/
theorem spec_C8_witness :
    ("Grow", (2/5 : ℚ)) ∈ okr_summary exOkrs ∧
    (2/5 : ℚ) =
      ((exOkrs.filter (fun r => decide (r.objectives = "Grow"))).map OkrRow.current).sum /
        (((exOkrs.filter (fun r => decide (r.objectives = "Grow"))).length : ℚ)) := by
  have hmem : ("Grow", (2/5 : ℚ)) ∈ okr_summary exOkrs := by
    simp +decide [okr_summary, exOkrs]
    norm_num
  exact ⟨hmem, (spec_C8 exOkrs).2.2.1 ("Grow", (2/5 : ℚ)) hmem⟩

/-- Iterating the index advance `k + 1` times from `i` lands on
`(i + k + 1) % n`. -/
theorem tvAdvance_iterate (n : Nat) :
    ∀ (k i : Nat), (tvAdvance n)^[k + 1] i = (i + k + 1) % n := by
  intro k
  induction k with
  | zero => intro i; simp [tvAdvance]
  | succ k ih =>
      intro i
      rw [Function.iterate_succ_apply, ih (tvAdvance n i)]
      simp only [tvAdvance]
      have h1 : (i + 1) % n + k + 1 = (i + 1) % n + (k + 1) := by omega
      rw [h1, Nat.mod_add_mod]
      congr 1
      omega

/-- Claim C6: each tick of the presentation cycle renders the view at the
current zero-based index and advances the index modulo the list length;
from index 0, after exactly `n` ticks the index returns to 0; and every
state reachable from an in-range index stays in `[0, n)`. -/
theorem spec_C6 {V : Type} (views : List V) (h : 0 < views.length) :
    (∀ i (hi : i < views.length),
       (tvTick views i).1 = some (views.get ⟨i, hi⟩) ∧
       (tvTick views i).2 = tvAdvance views.length i) ∧
    (tvAdvance views.length)^[views.length] 0 = 0 ∧
    (∀ i k, i < views.length → (tvAdvance views.length)^[k] i < views.length) := by
  refine ⟨?_, ?_, ?_⟩
  · intro i hi
    refine ⟨?_, rfl⟩
    simp [tvTick, List.getElem?_eq_getElem hi]
  · obtain ⟨m, hm⟩ : ∃ m, views.length = m + 1 := ⟨views.length - 1, by omega⟩
    rw [hm, tvAdvance_iterate]
    have : 0 + m + 1 = m + 1 := by omega
    rw [this, Nat.mod_self]
  · intro i k hi
    cases k with
    | zero => simpa using hi
    | succ k =>
        rw [tvAdvance_iterate]
        exact Nat.mod_lt _ h

/-- Witness for C6: with a 3-view list, after exactly 3 ticks from index 0
the active index returns to 0. -/
theorem spec_C6_witness :
    (0 : Nat) < (["a", "b", "c"] : List String).length ∧
    (tvAdvance (["a", "b", "c"] : List String).length)^[
      (["a", "b", "c"] : List String).length] 0 = 0 := by
  have h := spec_C6 (["a", "b", "c"] : List String) (by decide)
  exact ⟨by decide, h.2.1⟩

/-- Claim C10: leaving TV mode changes only the mode flag and preserves the
stored view index; entering TV mode initializes the index to 0 only when no
stored index exists; hence a stop followed by a restart resumes from the
stored index, not from the first view. -/
theorem spec_C10 (s : SessionState) :
    ((exit_tv_mode s).view_index = s.view_index ∧
     (exit_tv_mode s).tv_mode_on = false) ∧
    (s.view_index = none →
       (ensure_view_index (start_tv_mode s)).view_index = some 0) ∧
    (∀ k, s.view_index = some k →
       (ensure_view_index (start_tv_mode (exit_tv_mode s))).view_index = some k) := by
  refine ⟨⟨rfl, rfl⟩, ?_, ?_⟩
  · intro h
    simp [ensure_view_index, start_tv_mode, h]
  · intro k h
    simp [ensure_view_index, start_tv_mode, exit_tv_mode, h]

/-- Witness for C10: from a session stopped at view index 4, exiting leaves
the index at 4 and a restarted cycle resumes at 4. -/
theorem spec_C10_witness :
    (exit_tv_mode { tv_mode_on := true, view_index := some 4 }).view_index = some 4 ∧
    (ensure_view_index (start_tv_mode (exit_tv_mode
      { tv_mode_on := true, view_index := some 4 }))).view_index = some 4 := by
  have h := spec_C10 { tv_mode_on := true, view_index := some 4 }
  exact ⟨h.1.1, h.2.2 4 rfl⟩

end Dash
